import Mathlib

/-!
Verification of the IPv4 stack boundary data model of aipstack
(src/aipstack/ip/IpStackTypes.h): interface address and gateway settings,
derived interface addresses, driver state, send flags, the packed TTL/protocol
value, route results and the prepared-send cache.

Machine integers of the C++ source (uint8_t, uint16_t, 32-bit addresses) are
embedded as natural numbers reduced modulo 2^8, 2^16 and 2^32 at the points
where the C++ types impose a conversion.  The C++ interface pointer of
IpRouteInfoIp4 is embedded as the index of the interface in the stack's
interface list.  Parts of the repository that are outside this excerpt
(route resolution, the checksum accumulator, the send entry points, the
configuration setters, the Ip4FlagDF constant) are modelled from the spec;
each such definition says so in its doc comment.
-/

namespace AIpStack

/-- One IPv4 address: a 32-bit value, embedded as a natural number below 2^32
(class Ip4Addr of ip/IpAddr.h wraps a 32-bit integer). -/
abbrev Ip4Addr := Nat

/-- Embeds Ip4Addr::ZeroAddr(), the all-zero address. -/
def Ip4Addr.zeroAddr : Ip4Addr := 0

/-- Embeds struct IpIfaceIp4AddrSetting (IpStackTypes.h lines 55-93): the IPv4
address configuration of a network interface.  Member initializers give
present = false, prefix_ = 0, addr = zero. -/
structure IpIfaceIp4AddrSetting where
  present : Bool := false
  prefix_ : Nat := 0
  addr : Ip4Addr := Ip4Addr.zeroAddr
deriving DecidableEq

/-- Embeds the default constructor IpIfaceIp4AddrSetting(): no address
assignment, all members at their initializers. -/
def IpIfaceIp4AddrSetting.default : IpIfaceIp4AddrSetting := {}

/-- Embeds the constructor IpIfaceIp4AddrSetting(uint8_t prefix_, Ip4Addr addr_):
sets present to true and stores the arguments; the uint8_t parameter type
reduces prefix_ modulo 2^8 and the address type reduces addr_ modulo 2^32. -/
def IpIfaceIp4AddrSetting.ofPrefixAddr (prefix_ : Nat) (addr_ : Nat) :
    IpIfaceIp4AddrSetting :=
  { present := true, prefix_ := prefix_ % 2^8, addr := addr_ % 2^32 }

/-- Embeds struct IpIfaceIp4GatewaySetting (IpStackTypes.h lines 101-132): the
IPv4 gateway configuration of a network interface. -/
structure IpIfaceIp4GatewaySetting where
  present : Bool := false
  addr : Ip4Addr := Ip4Addr.zeroAddr
deriving DecidableEq

/-- Embeds the default constructor IpIfaceIp4GatewaySetting(): no gateway
assignment. -/
def IpIfaceIp4GatewaySetting.default : IpIfaceIp4GatewaySetting := {}

/-- Embeds the constructor IpIfaceIp4GatewaySetting(Ip4Addr addr_): sets
present to true and stores the address (reduced modulo 2^32 by its type). -/
def IpIfaceIp4GatewaySetting.ofAddr (addr_ : Nat) : IpIfaceIp4GatewaySetting :=
  { present := true, addr := addr_ % 2^32 }

/-- Embeds struct IpIfaceIp4Addrs (IpStackTypes.h lines 143-168): cached
information about the IPv4 address configuration of a network interface. -/
structure IpIfaceIp4Addrs where
  addr : Ip4Addr
  netmask : Ip4Addr
  netaddr : Ip4Addr
  bcastaddr : Ip4Addr
  prefix_ : Nat
deriving DecidableEq

/-- Embeds struct IpIfaceDriverState (IpStackTypes.h lines 177-182): state
reported by interface drivers; the member initializer gives link_up = true. -/
structure IpIfaceDriverState where
  link_up : Bool := true
deriving DecidableEq

/-- Embeds the default construction of IpIfaceDriverState: all members at
their initializers. -/
def IpIfaceDriverState.default : IpIfaceDriverState := {}

/-- Modelled from the spec: Ip4FlagDF is defined in proto/Ip4Proto.h, which is
not part of this excerpt.  Per the spec it is the wire-level Dont-Fragment
indicator of the IPv4 flags/fragment-offset header field, that is bit 14 of
a 16-bit value. -/
def Ip4FlagDF : Nat := 1 <<< 14

/-- Embeds IpSendFlags::AllowBroadcastFlag (uint16_t(1) << 0). -/
def IpSendFlags.AllowBroadcastFlag : Nat := 1 <<< 0

/-- Embeds IpSendFlags::AllowNonLocalSrc (uint16_t(1) << 1). -/
def IpSendFlags.AllowNonLocalSrc : Nat := 1 <<< 1

/-- Embeds IpSendFlags::DontFragmentFlag (equal to Ip4FlagDF). -/
def IpSendFlags.DontFragmentFlag : Nat := Ip4FlagDF

/-- Embeds IpSendFlags::AllFlags, the mask of all flags which may be passed to
send functions: AllowBroadcastFlag|AllowNonLocalSrc|DontFragmentFlag. -/
def IpSendFlags.AllFlags : Nat :=
  IpSendFlags.AllowBroadcastFlag ||| IpSendFlags.AllowNonLocalSrc |||
    IpSendFlags.DontFragmentFlag

/-- Modelled from the spec: the send entry points (IpStack.h, not in this
excerpt) accept a flags value only when no bit outside AllFlags is set; any
other bit is a caller error.  The check computes flags AND NOT AllFlags within
16 bits and compares with zero. -/
def sendFlagsAllowed (f : Nat) : Bool :=
  f &&& (IpSendFlags.AllFlags ^^^ (2^16 - 1)) == 0

/-- Embeds class Ip4TtlProto (IpStackTypes.h lines 250-304): a pair of IPv4
TTL and protocol values encoded in a 16-bit unsigned integer as in the IPv4
header, TTL in the higher 8 bits and protocol in the lower 8 bits. -/
structure Ip4TtlProto where
  value : Nat
deriving DecidableEq

/-- Embeds the constructor Ip4TtlProto(uint16_t ttl_proto): value is
initialized to the argument (reduced modulo 2^16 by its type). -/
def Ip4TtlProto.ofValue (ttl_proto : Nat) : Ip4TtlProto :=
  ⟨ttl_proto % 2^16⟩

/-- Embeds the constructor Ip4TtlProto(uint8_t ttl, uint8_t proto): value is
uint16_t((uint16_t(ttl) << 8) | proto); the uint8_t parameter types reduce
both arguments modulo 2^8 and the uint16_t cast reduces the result
modulo 2^16. -/
def Ip4TtlProto.ofTtlProto (ttl proto : Nat) : Ip4TtlProto :=
  ⟨(((ttl % 2^8) <<< 8) ||| (proto % 2^8)) % 2^16⟩

/-- Embeds Ip4TtlProto::ttl(): uint8_t(value >> 8). -/
def Ip4TtlProto.ttl (tp : Ip4TtlProto) : Nat :=
  (tp.value >>> 8) % 2^8

/-- Embeds Ip4TtlProto::proto(): uint8_t(value). -/
def Ip4TtlProto.proto (tp : Ip4TtlProto) : Nat :=
  tp.value % 2^8

/-- Embeds struct IpRouteInfoIp4 (IpStackTypes.h lines 336-347): the outcome
of a route resolution.  The C++ member is a pointer to the interface; it is
embedded as the index of that interface in the stack's interface list. -/
structure IpRouteInfoIp4 where
  iface : Nat
  addr : Ip4Addr
deriving DecidableEq

/-- Embeds struct IpSendPreparedIp4 (IpStackTypes.h lines 396-407): reusable
data for sending multiple packets efficiently.  The field pchksum_state embeds
the member partial_chksum_state (an IpChksumAccumulator::State, modelled from
the spec as the running checksum sum since infra/Chksum.h is not part of this
excerpt). -/
structure IpSendPreparedIp4 where
  route_info : IpRouteInfoIp4
  pchksum_state : Nat
deriving DecidableEq

/-- Embeds the error taxonomy of the spec (section 7): NoRoute,
PolicyViolation, OversizeNoFragment, InvalidConfig. -/
inductive IpErr where
  | NoRoute
  | PolicyViolation
  | OversizeNoFragment
  | InvalidConfig
deriving DecidableEq

/-- Modelled from the spec: the stack derives the network mask from the prefix
length (the derivation code is outside this excerpt); the mask has exactly
prefix_ leading one bits within 32 bits and zeros elsewhere. -/
def netmaskOfPrefix (prefix_ : Nat) : Ip4Addr :=
  2^32 - 2^(32 - prefix_)

/-- Modelled from the spec: the stack computes the cached IpIfaceIp4Addrs from
a configured address and prefix length (the derivation code is outside this
excerpt): netaddr is addr AND netmask and bcastaddr is netaddr OR NOT netmask,
all within 32 bits. -/
def makeIp4Addrs (prefix_ : Nat) (addr : Nat) : IpIfaceIp4Addrs :=
  let nm := netmaskOfPrefix prefix_
  let na := (addr % 2^32) &&& nm
  { addr := addr % 2^32
    netmask := nm
    netaddr := na
    bcastaddr := na ||| (nm ^^^ (2^32 - 1))
    prefix_ := prefix_ }

/-- Modelled from the spec: the per-interface configuration state held by the
stack, an address setting and a gateway setting (the IpIface class is outside
this excerpt). -/
structure IfaceState where
  addr_setting : IpIfaceIp4AddrSetting := {}
  gateway_setting : IpIfaceIp4GatewaySetting := {}
deriving DecidableEq

/-- Modelled from the spec: IpIface::setIp4Addr is outside this excerpt; per
the spec's error taxonomy a configuration request with a malformed prefix
length (greater than 32) fails with InvalidConfig, otherwise the setting is
stored, replacing the previous one wholesale. -/
def IfaceState.setIp4Addr (st : IfaceState) (s : IpIfaceIp4AddrSetting) :
    Except IpErr IfaceState :=
  if 32 < s.prefix_ then Except.error IpErr.InvalidConfig
  else Except.ok { st with addr_setting := s }

/-- Modelled from the spec: the cached derived addresses of an interface,
absent when no address is configured. -/
def IfaceState.derivedAddrs (st : IfaceState) : Option IpIfaceIp4Addrs :=
  if st.addr_setting.present then
    some (makeIp4Addrs st.addr_setting.prefix_ st.addr_setting.addr)
  else none

/-- Modelled from the spec: an interface is a directly-connected match for a
destination when it has a configured address and the destination masked with
the interface netmask equals the interface network address. -/
def IfaceState.matchesDst (st : IfaceState) (dst : Ip4Addr) : Bool :=
  match st.derivedAddrs with
  | some a => dst &&& a.netmask == a.netaddr
  | none => false

/-- Modelled from the spec: first pass of route resolution, looking for a
directly-connected match; i is the index of the first list element within the
full interface list.  The next hop for a direct match is the destination
itself. -/
def findLocalRoute (ifaces : List IfaceState) (dst : Ip4Addr) (i : Nat) :
    Option IpRouteInfoIp4 :=
  match ifaces with
  | [] => none
  | st :: rest =>
    if st.matchesDst dst then some { iface := i, addr := dst }
    else findLocalRoute rest dst (i + 1)

/-- Modelled from the spec: second pass of route resolution, looking for an
interface with a configured gateway; the next hop is the gateway address. -/
def findGatewayRoute (ifaces : List IfaceState) (i : Nat) :
    Option IpRouteInfoIp4 :=
  match ifaces with
  | [] => none
  | st :: rest =>
    if st.gateway_setting.present then
      some { iface := i, addr := st.gateway_setting.addr }
    else findGatewayRoute rest (i + 1)

/-- Modelled from the spec: IpStack::routeIp4 is outside this excerpt; given a
destination it produces the outgoing interface and next-hop address, choosing
a directly-connected match first, else an interface with a configured gateway,
else no route. -/
def routeIp4 (ifaces : List IfaceState) (dst : Ip4Addr) :
    Option IpRouteInfoIp4 :=
  match findLocalRoute ifaces dst 0 with
  | some ri => some ri
  | none => findGatewayRoute ifaces 0

/-- Modelled from the spec: the checksum accumulator of infra/Chksum.h is
outside this excerpt; its state is the running sum and adding a 16-bit word
adds it to the sum. -/
def chksumAddWords (s : Nat) (ws : List Nat) : Nat :=
  ws.foldl (fun a w => a + w % 2^16) s

/-- Modelled from the spec: final carry folding of the ones-complement sum,
adding the high part into the low 16 bits until the sum fits 16 bits. -/
def chksumFoldCarry (s : Nat) : Nat :=
  if s < 2^16 then s
  else chksumFoldCarry (s % 2^16 + s / 2^16)
termination_by s
decreasing_by
  simp only [show (2:Nat)^16 = 65536 from by norm_num] at *
  omega

/-- Modelled from the spec: checksum finalization, the ones complement of the
folded sum within 16 bits. -/
def chksumFinalize (s : Nat) : Nat :=
  2^16 - 1 - chksumFoldCarry s

/-- Modelled from the spec: the per-send parameters passed to the send entry
points, a destination, source, TTL/protocol and the send flags. -/
structure Ip4SendParams where
  src_addr : Ip4Addr
  dst_addr : Ip4Addr
  ttl_proto : Ip4TtlProto
  flags : Nat
deriving DecidableEq

/-- Modelled from the spec: the header fields that are invariant across
repeated sends to the same destination (the addresses as 16-bit halves and
the TTL/protocol word), over which prepareSendIp4Dgram computes its partial
checksum. -/
def invariantWords (q : Ip4SendParams) : List Nat :=
  [q.src_addr >>> 16, q.src_addr % 2^16,
   q.dst_addr >>> 16, q.dst_addr % 2^16,
   q.ttl_proto.value]

/-- Modelled from the spec: the per-send words of the checksum, the
flags/fragment word (carrying the Dont-Fragment bit), the total length of the
datagram (20-byte header plus payload) and the payload words. -/
def variableWords (q : Ip4SendParams) (payload : List Nat) : List Nat :=
  (q.flags &&& IpSendFlags.DontFragmentFlag) :: (20 + payload.length) :: payload

/-- Modelled from the spec: one transmitted IPv4 datagram as handed to the
link layer, the chosen route, the header fields and the payload. -/
structure Ip4Dgram where
  route : IpRouteInfoIp4
  src_addr : Ip4Addr
  dst_addr : Ip4Addr
  ttl_proto : Ip4TtlProto
  dont_frag : Bool
  total_len : Nat
  hdr_chksum : Nat
  payload : List Nat
deriving DecidableEq

/-- Modelled from the spec: IpStack::prepareSendIp4Dgram is outside this
excerpt; it performs one route resolution and one partial checksum
computation over the invariant header fields, returning an IpSendPreparedIp4,
or fails with NoRoute. -/
def prepareSendIp4Dgram (ifaces : List IfaceState) (q : Ip4SendParams) :
    Except IpErr IpSendPreparedIp4 :=
  match routeIp4 ifaces q.dst_addr with
  | none => Except.error IpErr.NoRoute
  | some ri =>
    Except.ok { route_info := ri
                pchksum_state := chksumAddWords 0 (invariantWords q) }

/-- Modelled from the spec: IpStack::sendIp4DgramFast is outside this excerpt;
it completes the checksum over the per-send words starting from the prepared
partial state and transmits, without repeating route resolution. -/
def sendIp4DgramFast (prep : IpSendPreparedIp4) (q : Ip4SendParams)
    (payload : List Nat) : Ip4Dgram :=
  { route := prep.route_info
    src_addr := q.src_addr
    dst_addr := q.dst_addr
    ttl_proto := q.ttl_proto
    dont_frag := (q.flags &&& IpSendFlags.DontFragmentFlag) != 0
    total_len := 20 + payload.length
    hdr_chksum :=
      chksumFinalize (chksumAddWords prep.pchksum_state (variableWords q payload))
    payload := payload }

/-- Modelled from the spec: IpStack::sendIp4Dgram is outside this excerpt; the
direct path resolves the route and computes the whole checksum in one pass
over the invariant and per-send words, or fails with NoRoute. -/
def sendIp4Dgram (ifaces : List IfaceState) (q : Ip4SendParams)
    (payload : List Nat) : Except IpErr Ip4Dgram :=
  match routeIp4 ifaces q.dst_addr with
  | none => Except.error IpErr.NoRoute
  | some ri =>
    Except.ok
      { route := ri
        src_addr := q.src_addr
        dst_addr := q.dst_addr
        ttl_proto := q.ttl_proto
        dont_frag := (q.flags &&& IpSendFlags.DontFragmentFlag) != 0
        total_len := 20 + payload.length
        hdr_chksum :=
          chksumFinalize
            (chksumAddWords 0 (invariantWords q ++ variableWords q payload))
        payload := payload }

/-- A bit set in a value below 2^w has index below w. -/
theorem testBit_true_lt {f w i : Nat} (hf : f < 2^w) (h : f.testBit i = true) :
    i < w := by
  by_contra hge
  have h2 : f < 2^i := lt_of_lt_of_le hf (Nat.pow_le_pow_right (by norm_num) (by omega))
  rw [Nat.testBit_lt_two_pow h2] at h
  exact Bool.false_ne_true h

/-- For f below 2^w, clearing against the complemented mask gives zero exactly
when masking with the mask leaves f unchanged. -/
theorem land_compl_eq_zero_iff {w m f : Nat} (hf : f < 2^w) :
    f &&& (m ^^^ (2^w - 1)) = 0 ↔ f &&& m = f := by
  constructor
  · intro h
    apply Nat.eq_of_testBit_eq
    intro i
    rw [Nat.testBit_and]
    cases hfi : f.testBit i with
    | false => simp
    | true =>
      have hiw : i < w := testBit_true_lt hf hfi
      have hb := congrArg (fun x => Nat.testBit x i) h
      simp [Nat.testBit_and, Nat.testBit_xor, Nat.testBit_two_pow_sub_one, hfi, hiw] at hb
      simp [hb]
  · intro h
    apply Nat.eq_of_testBit_eq
    intro i
    rw [Nat.testBit_and, Nat.zero_testBit]
    cases hfi : f.testBit i with
    | false => simp
    | true =>
      have hiw : i < w := testBit_true_lt hf hfi
      have hb := congrArg (fun x => Nat.testBit x i) h
      simp [Nat.testBit_and, hfi] at hb
      simp [Nat.testBit_xor, Nat.testBit_two_pow_sub_one, hb, hiw]

/-- Shifting left by 8 and or-ing a value below 2^8 is the same as multiplying
by 2^8 and adding. -/
theorem shl8_or (ttl proto : Nat) (h : proto < 2^8) :
    (ttl <<< 8) ||| proto = 2^8 * ttl + proto := by
  rw [Nat.shiftLeft_eq, Nat.mul_comm]
  exact (Nat.mul_add_lt_is_or h ttl).symm

/-- The two-argument Ip4TtlProto constructor packs into 2^8 * ttl + proto when
the arguments are in 8-bit range. -/
theorem ofTtlProto_value (ttl proto : Nat) (h1 : ttl < 2^8) (h2 : proto < 2^8) :
    (Ip4TtlProto.ofTtlProto ttl proto).value = 2^8 * ttl + proto := by
  show (((ttl % 2^8) <<< 8) ||| (proto % 2^8)) % 2^16 = 2^8 * ttl + proto
  rw [Nat.mod_eq_of_lt h1, Nat.mod_eq_of_lt h2, shl8_or ttl proto h2]
  have e8 : (2:Nat)^8 = 256 := by norm_num
  have e16 : (2:Nat)^16 = 65536 := by norm_num
  rw [e8, e16] at *
  omega

/-- C4: for every 8-bit ttl and proto, the constructor Ip4TtlProto(ttl, proto)
stores value = (ttl << 8) | proto, so the high byte of value is the TTL and
the low byte is the protocol number; and Ip4TtlProto(64, 6).value = 0x4006. -/
theorem ttlProto_packs_high_ttl_low_proto :
    (∀ ttl proto, ttl < 2^8 → proto < 2^8 →
      (Ip4TtlProto.ofTtlProto ttl proto).value = ((ttl <<< 8) ||| proto) ∧
      (Ip4TtlProto.ofTtlProto ttl proto).value / 2^8 = ttl ∧
      (Ip4TtlProto.ofTtlProto ttl proto).value % 2^8 = proto) ∧
    (Ip4TtlProto.ofTtlProto 64 6).value = 0x4006 := by
  constructor
  · intro ttl proto h1 h2
    rw [ofTtlProto_value ttl proto h1 h2, shl8_or ttl proto h2]
    have e8 : (2:Nat)^8 = 256 := by norm_num
    rw [e8] at *
    omega
  · decide

/-- C4 witness: the theorem applied at ttl = 64, proto = 6. -/
theorem ttlProto_packs_witness :
    64 < 2^8 ∧ 6 < 2^8 ∧
      ((Ip4TtlProto.ofTtlProto 64 6).value = ((64 <<< 8) ||| 6) ∧
       (Ip4TtlProto.ofTtlProto 64 6).value / 2^8 = 64 ∧
       (Ip4TtlProto.ofTtlProto 64 6).value % 2^8 = 6) :=
  ⟨by decide, by decide,
    ttlProto_packs_high_ttl_low_proto.1 64 6 (by decide) (by decide)⟩

/-- C5: for every 8-bit ttl and proto, the accessors ttl() and proto() recover
exactly the constructor arguments. -/
theorem ttlProto_round_trip :
    ∀ ttl proto, ttl < 2^8 → proto < 2^8 →
      (Ip4TtlProto.ofTtlProto ttl proto).ttl = ttl ∧
      (Ip4TtlProto.ofTtlProto ttl proto).proto = proto := by
  intro ttl proto h1 h2
  unfold Ip4TtlProto.ttl Ip4TtlProto.proto
  rw [ofTtlProto_value ttl proto h1 h2, Nat.shiftRight_eq_div_pow]
  have e8 : (2:Nat)^8 = 256 := by norm_num
  rw [e8] at *
  omega

/-- C5 witness: the theorem applied at ttl = 64, proto = 6. -/
theorem ttlProto_round_trip_witness :
    64 < 2^8 ∧ 6 < 2^8 ∧
      ((Ip4TtlProto.ofTtlProto 64 6).ttl = 64 ∧
       (Ip4TtlProto.ofTtlProto 64 6).proto = 6) :=
  ⟨by decide, by decide, ttlProto_round_trip 64 6 (by decide) (by decide)⟩

/-- C9: for every 16-bit v, Ip4TtlProto(v).value = v, and re-packing the
decoded ttl and proto parts gives back v, so the encoding is a bijection
between 16-bit values and (ttl, proto) pairs. -/
theorem ttlProto_encode_bijection :
    ∀ v, v < 2^16 →
      (Ip4TtlProto.ofValue v).value = v ∧
      (Ip4TtlProto.ofTtlProto (Ip4TtlProto.ofValue v).ttl
        (Ip4TtlProto.ofValue v).proto).value = v := by
  intro v hv
  have hval : (Ip4TtlProto.ofValue v).value = v := Nat.mod_eq_of_lt hv
  refine ⟨hval, ?_⟩
  have e8 : (2:Nat)^8 = 256 := by norm_num
  have e16 : (2:Nat)^16 = 65536 := by norm_num
  have httl : (Ip4TtlProto.ofValue v).ttl = v / 2^8 := by
    unfold Ip4TtlProto.ttl
    rw [hval, Nat.shiftRight_eq_div_pow]
    rw [e8, e16] at *
    omega
  have hproto : (Ip4TtlProto.ofValue v).proto = v % 2^8 := by
    unfold Ip4TtlProto.proto
    rw [hval]
  rw [httl, hproto,
    ofTtlProto_value (v / 2^8) (v % 2^8)
      (by rw [e8, e16] at *; omega) (by rw [e8] at *; omega)]
  rw [e8, e16] at *
  omega

/-- C9 witness: the theorem applied at v = 0x4006. -/
theorem ttlProto_encode_bijection_witness :
    16390 < 2^16 ∧
      ((Ip4TtlProto.ofValue 16390).value = 16390 ∧
       (Ip4TtlProto.ofTtlProto (Ip4TtlProto.ofValue 16390).ttl
         (Ip4TtlProto.ofValue 16390).proto).value = 16390) :=
  ⟨by decide, ttlProto_encode_bijection 16390 (by decide)⟩

/-- C10: a default-constructed IpIfaceDriverState reports link_up = true. -/
theorem driverState_default_link_up :
    IpIfaceDriverState.default.link_up = true := rfl

/-- C8: default-constructed settings have present = false and zeroed members,
and the parameterized constructors set present = true and store the given
members unchanged. -/
theorem settings_constructors :
    (IpIfaceIp4AddrSetting.default.present = false ∧
     IpIfaceIp4AddrSetting.default.prefix_ = 0 ∧
     IpIfaceIp4AddrSetting.default.addr = 0) ∧
    (IpIfaceIp4GatewaySetting.default.present = false ∧
     IpIfaceIp4GatewaySetting.default.addr = 0) ∧
    (∀ p a, p < 2^8 → a < 2^32 →
      (IpIfaceIp4AddrSetting.ofPrefixAddr p a).present = true ∧
      (IpIfaceIp4AddrSetting.ofPrefixAddr p a).prefix_ = p ∧
      (IpIfaceIp4AddrSetting.ofPrefixAddr p a).addr = a) ∧
    (∀ a, a < 2^32 →
      (IpIfaceIp4GatewaySetting.ofAddr a).present = true ∧
      (IpIfaceIp4GatewaySetting.ofAddr a).addr = a) := by
  refine ⟨⟨rfl, rfl, rfl⟩, ⟨rfl, rfl⟩, ?_, ?_⟩
  · intro p a hp ha
    exact ⟨rfl, Nat.mod_eq_of_lt hp, Nat.mod_eq_of_lt ha⟩
  · intro a ha
    exact ⟨rfl, Nat.mod_eq_of_lt ha⟩

/-- C8 witness: the parameterized constructors applied at prefix 24 and
address 0xC000020A. -/
theorem settings_constructors_witness :
    24 < 2^8 ∧ 3221225994 < 2^32 ∧
      ((IpIfaceIp4AddrSetting.ofPrefixAddr 24 3221225994).present = true ∧
       (IpIfaceIp4AddrSetting.ofPrefixAddr 24 3221225994).prefix_ = 24 ∧
       (IpIfaceIp4AddrSetting.ofPrefixAddr 24 3221225994).addr = 3221225994) ∧
      ((IpIfaceIp4GatewaySetting.ofAddr 3221225994).present = true ∧
       (IpIfaceIp4GatewaySetting.ofAddr 3221225994).addr = 3221225994) :=
  ⟨by decide, by decide,
    settings_constructors.2.2.1 24 3221225994 (by decide) (by decide),
    settings_constructors.2.2.2 3221225994 (by decide)⟩

/-- C3: for every prefix in 0..32 the derived netmask has exactly prefix
leading one bits within 32 bits and zeros elsewhere, netaddr is addr AND
netmask, bcastaddr is netaddr OR NOT netmask, and address 192.0.2.10 with
prefix 24 yields netmask 255.255.255.0, netaddr 192.0.2.0 and
bcastaddr 192.0.2.255. -/
theorem derivedAddrs_invariants :
    (∀ p, p ≤ 32 →
      (∀ i, i < 32 → (netmaskOfPrefix p).testBit i = decide (32 - p ≤ i)) ∧
      netmaskOfPrefix p < 2^32) ∧
    (∀ p a, (makeIp4Addrs p a).netaddr =
      (makeIp4Addrs p a).addr &&& (makeIp4Addrs p a).netmask) ∧
    (∀ p a, (makeIp4Addrs p a).bcastaddr =
      (makeIp4Addrs p a).netaddr ||| ((makeIp4Addrs p a).netmask ^^^ (2^32 - 1))) ∧
    makeIp4Addrs 24 3221225994 =
      { addr := 3221225994, netmask := 4294967040, netaddr := 3221225984,
        bcastaddr := 3221226239, prefix_ := 24 } := by
  refine ⟨by decide, fun p a => rfl, fun p a => rfl, by decide⟩

/-- C3 witness: the netmask bit characterization applied at prefix 24,
bit 7 (the highest zero bit) and bit 8 (the lowest one bit). -/
theorem derivedAddrs_invariants_witness :
    24 ≤ 32 ∧ 7 < 32 ∧ 8 < 32 ∧
      (netmaskOfPrefix 24).testBit 7 = decide (32 - 24 ≤ 7) ∧
      (netmaskOfPrefix 24).testBit 8 = decide (32 - 24 ≤ 8) ∧
      netmaskOfPrefix 24 < 2^32 :=
  ⟨by decide, by decide, by decide,
    (derivedAddrs_invariants.1 24 (by decide)).1 7 (by decide),
    (derivedAddrs_invariants.1 24 (by decide)).1 8 (by decide),
    (derivedAddrs_invariants.1 24 (by decide)).2⟩

/-- C6: the three send flags are pairwise disjoint bit patterns, AllFlags is
their bitwise union, and a 16-bit flags value passes the send entry check
exactly when it has no bit outside AllFlags. -/
theorem sendFlags_closed_set :
    IpSendFlags.AllowBroadcastFlag &&& IpSendFlags.AllowNonLocalSrc = 0 ∧
    IpSendFlags.AllowBroadcastFlag &&& IpSendFlags.DontFragmentFlag = 0 ∧
    IpSendFlags.AllowNonLocalSrc &&& IpSendFlags.DontFragmentFlag = 0 ∧
    IpSendFlags.AllFlags =
      IpSendFlags.AllowBroadcastFlag ||| IpSendFlags.AllowNonLocalSrc |||
        IpSendFlags.DontFragmentFlag ∧
    (∀ f, f < 2^16 → (sendFlagsAllowed f = true ↔ f &&& IpSendFlags.AllFlags = f)) := by
  refine ⟨by decide, by decide, by decide, rfl, ?_⟩
  intro f hf
  unfold sendFlagsAllowed
  rw [beq_iff_eq]
  exact land_compl_eq_zero_iff hf

/-- C6 witness: the legality characterization applied at the flags value
AllowBroadcastFlag OR DontFragmentFlag and at the illegal bit 2. -/
theorem sendFlags_closed_set_witness :
    16385 < 2^16 ∧ 4 < 2^16 ∧
      (sendFlagsAllowed 16385 = true ↔ 16385 &&& IpSendFlags.AllFlags = 16385) ∧
      (sendFlagsAllowed 4 = true ↔ 4 &&& IpSendFlags.AllFlags = 4) :=
  ⟨by decide, by decide,
    sendFlags_closed_set.2.2.2.2 16385 (by decide),
    sendFlags_closed_set.2.2.2.2 4 (by decide)⟩

/-- C7: a configuration request with prefix length greater than 32 fails with
the InvalidConfig error, and any setting held after a successful configuration
has prefix at most 32. -/
theorem setIp4Addr_validates_prefix :
    (∀ st s, 32 < s.prefix_ →
      IfaceState.setIp4Addr st s = Except.error IpErr.InvalidConfig) ∧
    (∀ st s st', IfaceState.setIp4Addr st s = Except.ok st' →
      st'.addr_setting.prefix_ ≤ 32) := by
  constructor
  · intro st s h
    unfold IfaceState.setIp4Addr
    rw [if_pos h]
  · intro st s st' h
    unfold IfaceState.setIp4Addr at h
    by_cases hc : 32 < s.prefix_
    · rw [if_pos hc] at h
      exact absurd h (by simp)
    · rw [if_neg hc] at h
      cases h
      simpa using Nat.le_of_not_lt hc

/-- C7 witness: a request with prefix 33 is rejected with InvalidConfig, and a
request with prefix 24 is accepted with the held prefix at most 32. -/
theorem setIp4Addr_validates_prefix_witness :
    32 < (IpIfaceIp4AddrSetting.ofPrefixAddr 33 0).prefix_ ∧
      IfaceState.setIp4Addr {} (IpIfaceIp4AddrSetting.ofPrefixAddr 33 0) =
        Except.error IpErr.InvalidConfig ∧
      IfaceState.setIp4Addr {} (IpIfaceIp4AddrSetting.ofPrefixAddr 24 0) =
        Except.ok { addr_setting := IpIfaceIp4AddrSetting.ofPrefixAddr 24 0 } ∧
      ({ addr_setting := IpIfaceIp4AddrSetting.ofPrefixAddr 24 0 } :
        IfaceState).addr_setting.prefix_ ≤ 32 :=
  ⟨by decide,
    setIp4Addr_validates_prefix.1 {} (IpIfaceIp4AddrSetting.ofPrefixAddr 33 0)
      (by decide),
    by rfl,
    setIp4Addr_validates_prefix.2 {} (IpIfaceIp4AddrSetting.ofPrefixAddr 24 0)
      { addr_setting := IpIfaceIp4AddrSetting.ofPrefixAddr 24 0 } (by rfl)⟩

/-- The route model is not vacuous: a directly-connected destination routes
through the configured interface with the destination as next hop, and a
non-local destination uses the gateway. -/
theorem routeIp4_sanity :
    routeIp4 [⟨⟨true, 24, 3221225994⟩, ⟨true, 3221225985⟩⟩] 3221225989 =
      some ⟨0, 3221225989⟩ ∧
    routeIp4 [⟨⟨true, 24, 3221225994⟩, ⟨true, 3221225985⟩⟩] 167772161 =
      some ⟨0, 3221225985⟩ := by
  constructor <;> rfl

/-- C1: for every interface topology, destination, flags value and payload,
prepareSendIp4Dgram followed immediately by sendIp4DgramFast with the payload
produces the same transmitted datagram (and the same NoRoute failure) as a
single direct sendIp4Dgram call with the same destination, flags and
payload. -/
theorem prepare_then_fast_eq_direct_send (ifaces : List IfaceState)
    (q : Ip4SendParams) (payload : List Nat) :
    (prepareSendIp4Dgram ifaces q).map
        (fun prep => sendIp4DgramFast prep q payload)
      = sendIp4Dgram ifaces q payload := by
  unfold prepareSendIp4Dgram sendIp4Dgram
  cases routeIp4 ifaces q.dst_addr with
  | none => rfl
  | some ri =>
    simp only [Except.map]
    unfold sendIp4DgramFast
    simp only [chksumAddWords, List.foldl_append]

end AIpStack
